import Mathlib

/-!
Shallow embedding of `src/features2d.rs` from the cv-rs repository: a thin
foreign-function binding exposing the native MSER (maximally stable extremal
region) detector, plus the `MSERBuilder` configuration type.

Machine types: the source's `i32` values are only stored and forwarded, never
computed with, so they are embedded as `Int`; likewise `f64` values are only
stored and forwarded (no floating-point arithmetic occurs anywhere in the
file), so they are embedded as `Rat`, on which the source's decimal literals
are exact.  Raw pointers (`*mut CMSER`, `*mut CMat`) are embedded as `Nat`,
with `0` playing the role of the null pointer.

The native library's entry points (`cv_mser_new`, `cv_mser_detect_regions`,
`cv_mser_drop`) are declared `extern` in the source; their implementations are
not under `src/`, so their behavior is modelled from the spec where a claim
needs it, and every call the wrapper issues across the foreign boundary is
recorded in an explicit trace (`NativeCall`).
-/

/-- Modelled from the spec: the external binding layer's 2D integer point type
(`Point2i` from `super::core`), consumed here as an opaque value type. -/
structure Point2i where
  x : Int
  y : Int
deriving DecidableEq, Repr

/-- Modelled from the spec: the external binding layer's axis-aligned rectangle
type (`Rect` from `super::core`), consumed here as an opaque value type. -/
structure Rect where
  x : Int
  y : Int
  width : Int
  height : Int
deriving DecidableEq, Repr

/-- Pixel payload of a decoded image: the data a `Mat`'s inner pointer points
at.  Its exact shape is irrelevant to every claim; a grid of intensities. -/
abbrev ImageData := List (List Nat)

/-- Modelled from the spec: the external binding layer's image type (`Mat`
from `super::core`): a raw pointer `inner` to the native buffer, paired here
with the pixel payload that pointer refers to, so that non-mutation of the
image is expressible. -/
structure Mat where
  inner : Nat
  data : ImageData
deriving DecidableEq, Repr

/-- Modelled from the spec: the external binding layer's generic growable
collection `CVec<T>` (a C-owned array), consumed here as an opaque value
type holding its elements. -/
structure CVec (α : Type) where
  array : List α
deriving DecidableEq, Repr

/-- `CVec::default()`: the empty collection. -/
def CVec.default (α : Type) : CVec α := { array := [] }

/-- Modelled from the spec: `CVec::unpack`, which hands the collection's
elements over to the caller as an ordinary vector. -/
def CVec.unpack {α : Type} (v : CVec α) : List α := v.array

/-- Modelled from the spec: `unpack` at the nested type `CVec<CVec<Point2i>>`,
as used by `detect_regions`; it unpacks the outer collection and each inner
one. -/
def CVec.unpackNested {α : Type} (v : CVec (CVec α)) : List (List α) :=
  v.array.map CVec.unpack

/-- One call across the foreign boundary, as issued by the wrapper code in
`features2d.rs`: the three `extern "C"` entry points with the argument values
the wrapper passes (for `cv_mser_detect_regions`, the context pointer and the
image pointer; the two output-collection pointers are not data). -/
inductive NativeCall where
  | mser_new (delta : Int) (min_area : Int) (max_area : Int)
      (max_variation : Rat) (min_diversity : Rat) (max_evolution : Int)
      (area_threshold : Rat) (min_margin : Rat) (edge_blur_size : Int)
  | mser_detect_regions (cmser : Nat) (image : Nat)
  | mser_drop (cmser : Nat)
deriving DecidableEq, Repr

/-- The behavior of the native `cv_mser_new`, abstracted: it receives the nine
scalars and returns a raw context pointer.  Nothing constrains it; it may
return `0` (a null pointer, i.e. native construction failure). -/
abbrev NativeNew :=
  Int → Int → Int → Rat → Rat → Int → Rat → Rat → Int → Nat

/-- Modelled from the spec: the native MSER detection algorithm, abstracted as
a function of the configured context (its raw pointer) and the image payload,
producing one detected region per extremal region: a contour (ordered point
sequence) paired index-for-index with its axis-aligned bounding box.  The
algorithm itself lives in the external native library, not in this
repository. -/
abbrev NativeAlgo := Nat → ImageData → List (List Point2i × Rect)

/-- The `MSER` wrapper struct: it holds exactly one field, the raw pointer
returned by `cv_mser_new`. -/
structure MSER where
  value : Nat
deriving DecidableEq, Repr

/-- Result of embedding `MSER::new`: the constructed wrapper together with the
trace of native calls the constructor issued. -/
structure NewOutcome where
  wrapper : MSER
  trace : List NativeCall
deriving DecidableEq, Repr

/-- Embedding of `MSER::new`: calls `cv_mser_new` with the nine parameters,
in declaration order, and wraps the returned raw pointer without inspecting
it.  `nu` is the abstract native constructor. -/
def MSER.new (nu : NativeNew) (delta : Int) (min_area : Int) (max_area : Int)
    (max_variation : Rat) (min_diversity : Rat) (max_evolution : Int)
    (area_threshold : Rat) (min_margin : Rat) (edge_blur_size : Int) :
    NewOutcome :=
  let mser := nu delta min_area max_area max_variation min_diversity
    max_evolution area_threshold min_margin edge_blur_size
  { wrapper := { value := mser }
    trace := [NativeCall.mser_new delta min_area max_area max_variation
      min_diversity max_evolution area_threshold min_margin edge_blur_size] }

/-- Modelled from the spec: the native `cv_mser_detect_regions` entry point.
It reads the context and the image (the image is passed through a `*const`
pointer and, per the spec, is not mutated: the image payload comes back
unchanged) and overwrites the two output collections with the detection
results: one contour per detected region in the first, the region's bounding
box at the same index in the second. -/
def cv_mser_detect_regions (algo : NativeAlgo) (cmser : Nat)
    (imageData : ImageData) (_msersOut : CVec (CVec Point2i))
    (_bboxesOut : CVec Rect) :
    (CVec (CVec Point2i) × CVec Rect) × ImageData :=
  (({ array := (algo cmser imageData).map fun r => { array := r.1 } },
    { array := (algo cmser imageData).map Prod.snd }),
   imageData)

/-- Observable outcome of one `MSER::detect_regions` call: the returned pair
of sequences, the image payload as the call leaves it, and the trace of
native calls issued. -/
structure DetectOutcome where
  regions : List (List Point2i)
  boxes : List Rect
  imageAfter : ImageData
  trace : List NativeCall
deriving DecidableEq, Repr

/-- Embedding of `MSER::detect_regions`: construct two fresh default (empty)
output collections, make the single native call with the context pointer and
the image, then unpack both output collections and return them as a pair. -/
def MSER.detect_regions (algo : NativeAlgo) (self : MSER) (image : Mat) :
    DetectOutcome :=
  let msers := CVec.default (CVec Point2i)
  let bboxes := CVec.default Rect
  let out := cv_mser_detect_regions algo self.value image.data msers bboxes
  let msers := out.1.1
  let bboxes := out.1.2
  { regions := msers.unpackNested
    boxes := bboxes.unpack
    imageAfter := out.2
    trace := [NativeCall.mser_detect_regions self.value image.inner] }

/-- Embedding of the body of `impl Drop for MSER`: one `cv_mser_drop` call on
the stored pointer. -/
def MSER.drop (self : MSER) : List NativeCall :=
  [NativeCall.mser_drop self.value]

/-- The `MSERBuilder` struct: nine optional overrides, all unset in the
derived `Default`. -/
structure MSERBuilder where
  delta : Option Int := none
  min_area : Option Int := none
  max_area : Option Int := none
  max_variation : Option Rat := none
  min_diversity : Option Rat := none
  max_evolution : Option Int := none
  area_threshold : Option Rat := none
  min_margin : Option Rat := none
  edge_blur_size : Option Int := none
deriving DecidableEq, Repr

/-- `MSERBuilder::default()`: every field unset. -/
def MSERBuilder.default : MSERBuilder := {}

/-- Setter `MSERBuilder::delta` (named `set_delta` here because the Rust
method shares its name with the field): replace current delta with the
specified value. -/
def MSERBuilder.set_delta (self : MSERBuilder) (value : Int) : MSERBuilder :=
  { self with delta := some value }

/-- Setter `MSERBuilder::min_area`. -/
def MSERBuilder.set_min_area (self : MSERBuilder) (value : Int) :
    MSERBuilder :=
  { self with min_area := some value }

/-- Setter `MSERBuilder::max_area`. -/
def MSERBuilder.set_max_area (self : MSERBuilder) (value : Int) :
    MSERBuilder :=
  { self with max_area := some value }

/-- Setter `MSERBuilder::max_variation`. -/
def MSERBuilder.set_max_variation (self : MSERBuilder) (value : Rat) :
    MSERBuilder :=
  { self with max_variation := some value }

/-- Setter `MSERBuilder::min_diversity`. -/
def MSERBuilder.set_min_diversity (self : MSERBuilder) (value : Rat) :
    MSERBuilder :=
  { self with min_diversity := some value }

/-- Setter `MSERBuilder::max_evolution`. -/
def MSERBuilder.set_max_evolution (self : MSERBuilder) (value : Int) :
    MSERBuilder :=
  { self with max_evolution := some value }

/-- Setter `MSERBuilder::area_threshold`. -/
def MSERBuilder.set_area_threshold (self : MSERBuilder) (value : Rat) :
    MSERBuilder :=
  { self with area_threshold := some value }

/-- Setter `MSERBuilder::min_margin`. -/
def MSERBuilder.set_min_margin (self : MSERBuilder) (value : Rat) :
    MSERBuilder :=
  { self with min_margin := some value }

/-- Setter `MSERBuilder::edge_blur_size`. -/
def MSERBuilder.set_edge_blur_size (self : MSERBuilder) (value : Int) :
    MSERBuilder :=
  { self with edge_blur_size := some value }

/-- The nine fully-resolved scalars that `impl Into<MSER> for MSERBuilder`
passes to `MSER::new`, grouped in a record for statement purposes. -/
structure MSERArgs where
  delta : Int
  min_area : Int
  max_area : Int
  max_variation : Rat
  min_diversity : Rat
  max_evolution : Int
  area_threshold : Rat
  min_margin : Rat
  edge_blur_size : Int
deriving DecidableEq, Repr

/-- The parameter resolution performed by `impl Into<MSER> for MSERBuilder`:
each field's `unwrap_or` with its documented default, copied from the source
line for line. -/
def MSERBuilder.resolve (self : MSERBuilder) : MSERArgs :=
  { delta := self.delta.getD 5
    min_area := self.min_area.getD 60
    max_area := self.max_area.getD 14400
    max_variation := self.max_variation.getD 0.25
    min_diversity := self.min_diversity.getD 0.2
    max_evolution := self.max_evolution.getD 200
    area_threshold := self.area_threshold.getD 1.01
    min_margin := self.min_margin.getD 0.003
    edge_blur_size := self.edge_blur_size.getD 5 }

/-- Embedding of `impl Into<MSER> for MSERBuilder`: call `MSER::new` with
each parameter's `unwrap_or` against its documented default. -/
def MSERBuilder.into (nu : NativeNew) (self : MSERBuilder) : NewOutcome :=
  MSER.new nu (self.delta.getD 5) (self.min_area.getD 60)
    (self.max_area.getD 14400) (self.max_variation.getD 0.25)
    (self.min_diversity.getD 0.2) (self.max_evolution.getD 200)
    (self.area_threshold.getD 1.01) (self.min_margin.getD 0.003)
    (self.edge_blur_size.getD 5)

/-- One `MSERBuilder` setter call, named by the parameter it sets and
carrying the value passed. -/
inductive SetterCall where
  | delta (value : Int)
  | min_area (value : Int)
  | max_area (value : Int)
  | max_variation (value : Rat)
  | min_diversity (value : Rat)
  | max_evolution (value : Int)
  | area_threshold (value : Rat)
  | min_margin (value : Rat)
  | edge_blur_size (value : Int)
deriving DecidableEq, Repr

/-- Apply one setter call to a builder: dispatch to the corresponding
embedded setter. -/
def applyCall (b : MSERBuilder) : SetterCall → MSERBuilder
  | SetterCall.delta v => b.set_delta v
  | SetterCall.min_area v => b.set_min_area v
  | SetterCall.max_area v => b.set_max_area v
  | SetterCall.max_variation v => b.set_max_variation v
  | SetterCall.min_diversity v => b.set_min_diversity v
  | SetterCall.max_evolution v => b.set_max_evolution v
  | SetterCall.area_threshold v => b.set_area_threshold v
  | SetterCall.min_margin v => b.set_min_margin v
  | SetterCall.edge_blur_size v => b.set_edge_blur_size v

/-- Apply a chain of setter calls left to right, as Rust method chaining
does. -/
def applyCalls (b : MSERBuilder) (cs : List SetterCall) : MSERBuilder :=
  cs.foldl applyCall b

/-- The value a setter call carries for one fixed parameter, given that
parameter's selector (`none` when the call sets a different parameter). -/
def updArg {α : Type} (sel : SetterCall → Option α) (acc : Option α)
    (c : SetterCall) : Option α :=
  match sel c with
  | some v => some v
  | none => acc

/-- The value of the last setter call for one fixed parameter in a call
sequence, or `none` when the sequence never sets it. -/
def lastArg {α : Type} (sel : SetterCall → Option α)
    (cs : List SetterCall) : Option α :=
  cs.foldl (updArg sel) none

/-- Selector for `delta` calls. -/
def selDelta : SetterCall → Option Int
  | SetterCall.delta v => some v
  | _ => none

/-- Selector for `min_area` calls. -/
def selMinArea : SetterCall → Option Int
  | SetterCall.min_area v => some v
  | _ => none

/-- Selector for `max_area` calls. -/
def selMaxArea : SetterCall → Option Int
  | SetterCall.max_area v => some v
  | _ => none

/-- Selector for `max_variation` calls. -/
def selMaxVariation : SetterCall → Option Rat
  | SetterCall.max_variation v => some v
  | _ => none

/-- Selector for `min_diversity` calls. -/
def selMinDiversity : SetterCall → Option Rat
  | SetterCall.min_diversity v => some v
  | _ => none

/-- Selector for `max_evolution` calls. -/
def selMaxEvolution : SetterCall → Option Int
  | SetterCall.max_evolution v => some v
  | _ => none

/-- Selector for `area_threshold` calls. -/
def selAreaThreshold : SetterCall → Option Rat
  | SetterCall.area_threshold v => some v
  | _ => none

/-- Selector for `min_margin` calls. -/
def selMinMargin : SetterCall → Option Rat
  | SetterCall.min_margin v => some v
  | _ => none

/-- Selector for `edge_blur_size` calls. -/
def selEdgeBlurSize : SetterCall → Option Int
  | SetterCall.edge_blur_size v => some v
  | _ => none

/-- One step in a wrapper's life after construction: the owner either moves
the wrapper (ownership transfer, no native call) or calls `detect_regions`
on an image. -/
inductive OwnerAction where
  | move
  | detect (image : Mat)

/-- The native calls issued by a list of owner actions: moves issue none,
each detect issues the calls of the embedded `detect_regions`. -/
def usesTrace (algo : NativeAlgo) (self : MSER) :
    List OwnerAction → List NativeCall
  | [] => []
  | OwnerAction.move :: rest => usesTrace algo self rest
  | OwnerAction.detect image :: rest =>
      (MSER.detect_regions algo self image).trace ++ usesTrace algo self rest

/-- Rust ownership semantics for the wrapper, as a trace model: the wrapper
is constructed once by `MSER::new`, then moved or used any number of times,
and at the end of the final owner's scope the language runs `Drop::drop`
exactly once; moves never run it.  The full native-call trace of one
wrapper's life. -/
def MSER.lifetime (nu : NativeNew) (algo : NativeAlgo) (delta : Int)
    (min_area : Int) (max_area : Int) (max_variation : Rat)
    (min_diversity : Rat) (max_evolution : Int) (area_threshold : Rat)
    (min_margin : Rat) (edge_blur_size : Int) (actions : List OwnerAction) :
    List NativeCall :=
  let o := MSER.new nu delta min_area max_area max_variation min_diversity
    max_evolution area_threshold min_margin edge_blur_size
  o.trace ++ usesTrace algo o.wrapper actions ++ MSER.drop o.wrapper

/-- Whether a native call is a `cv_mser_drop` (a release of a native
context). -/
def isDropCall : NativeCall → Bool
  | NativeCall.mser_drop _ => true
  | _ => false

/-- A straight-line sequence of `detect_regions` calls on one detector
instance: the outcome of each call in order. -/
def runDetections (algo : NativeAlgo) (self : MSER) (images : List Mat) :
    List DetectOutcome :=
  images.map fun image => MSER.detect_regions algo self image

example : MSERBuilder.default.resolve =
    { delta := 5, min_area := 60, max_area := 14400, max_variation := 0.25,
      min_diversity := 0.2, max_evolution := 200, area_threshold := 1.01,
      min_margin := 0.003, edge_blur_size := 5 } := rfl

example : (0.25 : Rat) = 1/4 ∧ (0.2 : Rat) = 1/5 ∧ (1.01 : Rat) = 101/100 ∧
    (0.003 : Rat) = 3/1000 := by norm_num

/-! ## Helper lemmas -/

theorem foldl_updArg {α : Type} (sel : SetterCall → Option α) :
    ∀ (cs : List SetterCall) (x : Option α),
    cs.foldl (updArg sel) x =
      (match lastArg sel cs with
       | some v => some v
       | none => x) := by
  intro cs
  induction cs with
  | nil => intro x; rfl
  | cons c cs ih =>
    intro x
    show cs.foldl (updArg sel) (updArg sel x c) = _
    rw [ih (updArg sel x c)]
    have h2 : lastArg sel (c :: cs) = cs.foldl (updArg sel) (updArg sel none c) := rfl
    rw [h2, ih (updArg sel none c)]
    cases hl : lastArg sel cs with
    | some v => rfl
    | none =>
      show updArg sel x c = _
      unfold updArg
      cases hc : sel c <;> rfl

theorem applyCall_delta (b : MSERBuilder) (c : SetterCall) :
    (applyCall b c).delta = updArg selDelta b.delta c := by
  cases c <;> rfl

theorem applyCall_min_area (b : MSERBuilder) (c : SetterCall) :
    (applyCall b c).min_area = updArg selMinArea b.min_area c := by
  cases c <;> rfl

theorem applyCall_max_area (b : MSERBuilder) (c : SetterCall) :
    (applyCall b c).max_area = updArg selMaxArea b.max_area c := by
  cases c <;> rfl

theorem applyCall_max_variation (b : MSERBuilder) (c : SetterCall) :
    (applyCall b c).max_variation = updArg selMaxVariation b.max_variation c := by
  cases c <;> rfl

theorem applyCall_min_diversity (b : MSERBuilder) (c : SetterCall) :
    (applyCall b c).min_diversity = updArg selMinDiversity b.min_diversity c := by
  cases c <;> rfl

theorem applyCall_max_evolution (b : MSERBuilder) (c : SetterCall) :
    (applyCall b c).max_evolution = updArg selMaxEvolution b.max_evolution c := by
  cases c <;> rfl

theorem applyCall_area_threshold (b : MSERBuilder) (c : SetterCall) :
    (applyCall b c).area_threshold = updArg selAreaThreshold b.area_threshold c := by
  cases c <;> rfl

theorem applyCall_min_margin (b : MSERBuilder) (c : SetterCall) :
    (applyCall b c).min_margin = updArg selMinMargin b.min_margin c := by
  cases c <;> rfl

theorem applyCall_edge_blur_size (b : MSERBuilder) (c : SetterCall) :
    (applyCall b c).edge_blur_size = updArg selEdgeBlurSize b.edge_blur_size c := by
  cases c <;> rfl

theorem applyCalls_delta : ∀ (cs : List SetterCall) (b : MSERBuilder),
    (applyCalls b cs).delta = cs.foldl (updArg selDelta) b.delta := by
  intro cs
  induction cs with
  | nil => intro b; rfl
  | cons c cs ih =>
    intro b
    show (applyCalls (applyCall b c) cs).delta = _
    rw [ih (applyCall b c), applyCall_delta]
    rfl

theorem applyCalls_min_area : ∀ (cs : List SetterCall) (b : MSERBuilder),
    (applyCalls b cs).min_area = cs.foldl (updArg selMinArea) b.min_area := by
  intro cs
  induction cs with
  | nil => intro b; rfl
  | cons c cs ih =>
    intro b
    show (applyCalls (applyCall b c) cs).min_area = _
    rw [ih (applyCall b c), applyCall_min_area]
    rfl

theorem applyCalls_max_area : ∀ (cs : List SetterCall) (b : MSERBuilder),
    (applyCalls b cs).max_area = cs.foldl (updArg selMaxArea) b.max_area := by
  intro cs
  induction cs with
  | nil => intro b; rfl
  | cons c cs ih =>
    intro b
    show (applyCalls (applyCall b c) cs).max_area = _
    rw [ih (applyCall b c), applyCall_max_area]
    rfl

theorem applyCalls_max_variation : ∀ (cs : List SetterCall) (b : MSERBuilder),
    (applyCalls b cs).max_variation =
      cs.foldl (updArg selMaxVariation) b.max_variation := by
  intro cs
  induction cs with
  | nil => intro b; rfl
  | cons c cs ih =>
    intro b
    show (applyCalls (applyCall b c) cs).max_variation = _
    rw [ih (applyCall b c), applyCall_max_variation]
    rfl

theorem applyCalls_min_diversity : ∀ (cs : List SetterCall) (b : MSERBuilder),
    (applyCalls b cs).min_diversity =
      cs.foldl (updArg selMinDiversity) b.min_diversity := by
  intro cs
  induction cs with
  | nil => intro b; rfl
  | cons c cs ih =>
    intro b
    show (applyCalls (applyCall b c) cs).min_diversity = _
    rw [ih (applyCall b c), applyCall_min_diversity]
    rfl

theorem applyCalls_max_evolution : ∀ (cs : List SetterCall) (b : MSERBuilder),
    (applyCalls b cs).max_evolution =
      cs.foldl (updArg selMaxEvolution) b.max_evolution := by
  intro cs
  induction cs with
  | nil => intro b; rfl
  | cons c cs ih =>
    intro b
    show (applyCalls (applyCall b c) cs).max_evolution = _
    rw [ih (applyCall b c), applyCall_max_evolution]
    rfl

theorem applyCalls_area_threshold : ∀ (cs : List SetterCall) (b : MSERBuilder),
    (applyCalls b cs).area_threshold =
      cs.foldl (updArg selAreaThreshold) b.area_threshold := by
  intro cs
  induction cs with
  | nil => intro b; rfl
  | cons c cs ih =>
    intro b
    show (applyCalls (applyCall b c) cs).area_threshold = _
    rw [ih (applyCall b c), applyCall_area_threshold]
    rfl

theorem applyCalls_min_margin : ∀ (cs : List SetterCall) (b : MSERBuilder),
    (applyCalls b cs).min_margin =
      cs.foldl (updArg selMinMargin) b.min_margin := by
  intro cs
  induction cs with
  | nil => intro b; rfl
  | cons c cs ih =>
    intro b
    show (applyCalls (applyCall b c) cs).min_margin = _
    rw [ih (applyCall b c), applyCall_min_margin]
    rfl

theorem applyCalls_edge_blur_size : ∀ (cs : List SetterCall) (b : MSERBuilder),
    (applyCalls b cs).edge_blur_size =
      cs.foldl (updArg selEdgeBlurSize) b.edge_blur_size := by
  intro cs
  induction cs with
  | nil => intro b; rfl
  | cons c cs ih =>
    intro b
    show (applyCalls (applyCall b c) cs).edge_blur_size = _
    rw [ih (applyCall b c), applyCall_edge_blur_size]
    rfl

theorem countP_usesTrace_drop (algo : NativeAlgo) (self : MSER) :
    ∀ (acts : List OwnerAction),
    (usesTrace algo self acts).countP isDropCall = 0 := by
  intro acts
  induction acts with
  | nil => rfl
  | cons a rest ih =>
    cases a with
    | move => exact ih
    | detect image =>
      show (((MSER.detect_regions algo self image).trace) ++
        usesTrace algo self rest).countP isDropCall = 0
      rw [List.countP_append, ih]
      rfl

/-! ## Claim theorems -/

/-- C1: for every call to `MSER::detect_regions` on any image and any
detector, the returned pair of sequences (region contours, bounding boxes)
have identical length. -/
theorem detect_regions_lengths_match (algo : NativeAlgo) (m : MSER)
    (image : Mat) :
    (MSER.detect_regions algo m image).regions.length =
      (MSER.detect_regions algo m image).boxes.length := by
  simp [MSER.detect_regions, cv_mser_detect_regions, CVec.unpackNested,
    CVec.unpack]

/-- C2: converting the default `MSERBuilder` (all nine fields unset) into a
detector resolves the nine parameters exactly to delta=5, min_area=60,
max_area=14400, max_variation=0.25, min_diversity=0.2, max_evolution=200,
area_threshold=1.01, min_margin=0.003, edge_blur_size=5 (both as the resolved
argument record and as the arguments of the one `cv_mser_new` call issued);
more generally, every unset parameter resolves to its documented default at
finalization. -/
theorem mser_builder_defaults :
    (MSERBuilder.default.resolve =
      { delta := 5, min_area := 60, max_area := 14400, max_variation := 0.25,
        min_diversity := 0.2, max_evolution := 200, area_threshold := 1.01,
        min_margin := 0.003, edge_blur_size := 5 }) ∧
    (∀ nu : NativeNew, (MSERBuilder.default.into nu).trace =
      [NativeCall.mser_new 5 60 14400 0.25 0.2 200 1.01 0.003 5]) ∧
    (∀ b : MSERBuilder,
      (b.delta = none → b.resolve.delta = 5) ∧
      (b.min_area = none → b.resolve.min_area = 60) ∧
      (b.max_area = none → b.resolve.max_area = 14400) ∧
      (b.max_variation = none → b.resolve.max_variation = 0.25) ∧
      (b.min_diversity = none → b.resolve.min_diversity = 0.2) ∧
      (b.max_evolution = none → b.resolve.max_evolution = 200) ∧
      (b.area_threshold = none → b.resolve.area_threshold = 1.01) ∧
      (b.min_margin = none → b.resolve.min_margin = 0.003) ∧
      (b.edge_blur_size = none → b.resolve.edge_blur_size = 5)) := by
  refine ⟨rfl, fun nu => rfl, fun b => ⟨?_, ?_, ?_, ?_, ?_, ?_, ?_, ?_, ?_⟩⟩
  all_goals intro h
  all_goals simp [MSERBuilder.resolve, h]

/-- Witness for C2: the default builder leaves `delta` unset, and the claim
theorem then gives that it resolves to 5. -/
theorem mser_builder_defaults_witness :
    MSERBuilder.default.delta = none ∧
      MSERBuilder.default.resolve.delta = 5 :=
  ⟨rfl, (mser_builder_defaults.2.2 MSERBuilder.default).1 rfl⟩

/-- C3: for every sequence of `MSERBuilder` setter calls applied to any
starting builder, the resolved value of each of the nine parameters after
finalization is determined by the last setter call for that parameter in the
sequence (and is the starting builder's resolution when the sequence never
sets it). -/
theorem mser_builder_last_setter_wins (b : MSERBuilder)
    (cs : List SetterCall) :
    ((applyCalls b cs).resolve.delta =
      (match lastArg selDelta cs with
       | some v => v
       | none => b.resolve.delta)) ∧
    ((applyCalls b cs).resolve.min_area =
      (match lastArg selMinArea cs with
       | some v => v
       | none => b.resolve.min_area)) ∧
    ((applyCalls b cs).resolve.max_area =
      (match lastArg selMaxArea cs with
       | some v => v
       | none => b.resolve.max_area)) ∧
    ((applyCalls b cs).resolve.max_variation =
      (match lastArg selMaxVariation cs with
       | some v => v
       | none => b.resolve.max_variation)) ∧
    ((applyCalls b cs).resolve.min_diversity =
      (match lastArg selMinDiversity cs with
       | some v => v
       | none => b.resolve.min_diversity)) ∧
    ((applyCalls b cs).resolve.max_evolution =
      (match lastArg selMaxEvolution cs with
       | some v => v
       | none => b.resolve.max_evolution)) ∧
    ((applyCalls b cs).resolve.area_threshold =
      (match lastArg selAreaThreshold cs with
       | some v => v
       | none => b.resolve.area_threshold)) ∧
    ((applyCalls b cs).resolve.min_margin =
      (match lastArg selMinMargin cs with
       | some v => v
       | none => b.resolve.min_margin)) ∧
    ((applyCalls b cs).resolve.edge_blur_size =
      (match lastArg selEdgeBlurSize cs with
       | some v => v
       | none => b.resolve.edge_blur_size)) := by
  refine ⟨?_, ?_, ?_, ?_, ?_, ?_, ?_, ?_, ?_⟩
  · have h := applyCalls_delta cs b
    rw [foldl_updArg] at h
    cases hl : lastArg selDelta cs with
    | some v =>
      rw [hl] at h
      show (applyCalls b cs).delta.getD 5 = v
      simp [h]
    | none =>
      rw [hl] at h
      show (applyCalls b cs).delta.getD 5 = b.delta.getD 5
      simp [h]
  · have h := applyCalls_min_area cs b
    rw [foldl_updArg] at h
    cases hl : lastArg selMinArea cs with
    | some v =>
      rw [hl] at h
      show (applyCalls b cs).min_area.getD 60 = v
      simp [h]
    | none =>
      rw [hl] at h
      show (applyCalls b cs).min_area.getD 60 = b.min_area.getD 60
      simp [h]
  · have h := applyCalls_max_area cs b
    rw [foldl_updArg] at h
    cases hl : lastArg selMaxArea cs with
    | some v =>
      rw [hl] at h
      show (applyCalls b cs).max_area.getD 14400 = v
      simp [h]
    | none =>
      rw [hl] at h
      show (applyCalls b cs).max_area.getD 14400 = b.max_area.getD 14400
      simp [h]
  · have h := applyCalls_max_variation cs b
    rw [foldl_updArg] at h
    cases hl : lastArg selMaxVariation cs with
    | some v =>
      rw [hl] at h
      show (applyCalls b cs).max_variation.getD 0.25 = v
      simp [h]
    | none =>
      rw [hl] at h
      show (applyCalls b cs).max_variation.getD 0.25 =
        b.max_variation.getD 0.25
      simp [h]
  · have h := applyCalls_min_diversity cs b
    rw [foldl_updArg] at h
    cases hl : lastArg selMinDiversity cs with
    | some v =>
      rw [hl] at h
      show (applyCalls b cs).min_diversity.getD 0.2 = v
      simp [h]
    | none =>
      rw [hl] at h
      show (applyCalls b cs).min_diversity.getD 0.2 =
        b.min_diversity.getD 0.2
      simp [h]
  · have h := applyCalls_max_evolution cs b
    rw [foldl_updArg] at h
    cases hl : lastArg selMaxEvolution cs with
    | some v =>
      rw [hl] at h
      show (applyCalls b cs).max_evolution.getD 200 = v
      simp [h]
    | none =>
      rw [hl] at h
      show (applyCalls b cs).max_evolution.getD 200 =
        b.max_evolution.getD 200
      simp [h]
  · have h := applyCalls_area_threshold cs b
    rw [foldl_updArg] at h
    cases hl : lastArg selAreaThreshold cs with
    | some v =>
      rw [hl] at h
      show (applyCalls b cs).area_threshold.getD 1.01 = v
      simp [h]
    | none =>
      rw [hl] at h
      show (applyCalls b cs).area_threshold.getD 1.01 =
        b.area_threshold.getD 1.01
      simp [h]
  · have h := applyCalls_min_margin cs b
    rw [foldl_updArg] at h
    cases hl : lastArg selMinMargin cs with
    | some v =>
      rw [hl] at h
      show (applyCalls b cs).min_margin.getD 0.003 = v
      simp [h]
    | none =>
      rw [hl] at h
      show (applyCalls b cs).min_margin.getD 0.003 =
        b.min_margin.getD 0.003
      simp [h]
  · have h := applyCalls_edge_blur_size cs b
    rw [foldl_updArg] at h
    cases hl : lastArg selEdgeBlurSize cs with
    | some v =>
      rw [hl] at h
      show (applyCalls b cs).edge_blur_size.getD 5 = v
      simp [h]
    | none =>
      rw [hl] at h
      show (applyCalls b cs).edge_blur_size.getD 5 =
        b.edge_blur_size.getD 5
      simp [h]

/-- C4: every `MSERBuilder` setter is a pure function of the builder value
and its argument: it produces the input builder with only its own field
replaced by `some` of the given value, all other eight fields unchanged (the
record-update equation says exactly this), and it is total — no other effect
and no failure mode. -/
theorem mser_builder_setters_pure (b : MSERBuilder) (v1 v2 v3 : Int)
    (v4 v5 : Rat) (v6 : Int) (v7 v8 : Rat) (v9 : Int) :
    b.set_delta v1 = { b with delta := some v1 } ∧
    b.set_min_area v2 = { b with min_area := some v2 } ∧
    b.set_max_area v3 = { b with max_area := some v3 } ∧
    b.set_max_variation v4 = { b with max_variation := some v4 } ∧
    b.set_min_diversity v5 = { b with min_diversity := some v5 } ∧
    b.set_max_evolution v6 = { b with max_evolution := some v6 } ∧
    b.set_area_threshold v7 = { b with area_threshold := some v7 } ∧
    b.set_min_margin v8 = { b with min_margin := some v8 } ∧
    b.set_edge_blur_size v9 = { b with edge_blur_size := some v9 } :=
  ⟨rfl, rfl, rfl, rfl, rfl, rfl, rfl, rfl, rfl⟩

/-- C5: over a whole wrapper lifetime — construction, then any sequence of
moves and `detect_regions` calls by successive owners, then the automatic
`Drop` at the end of the final owner's scope — the native release entry point
`cv_mser_drop` is invoked exactly once (moves never invoke it, so no
double-release). -/
theorem mser_drop_exactly_once (nu : NativeNew) (algo : NativeAlgo)
    (delta : Int) (min_area : Int) (max_area : Int) (max_variation : Rat)
    (min_diversity : Rat) (max_evolution : Int) (area_threshold : Rat)
    (min_margin : Rat) (edge_blur_size : Int)
    (actions : List OwnerAction) :
    (MSER.lifetime nu algo delta min_area max_area max_variation
      min_diversity max_evolution area_threshold min_margin edge_blur_size
      actions).countP isDropCall = 1 := by
  show ((MSER.new nu delta min_area max_area max_variation min_diversity
      max_evolution area_threshold min_margin edge_blur_size).trace ++
      usesTrace algo _ actions ++ MSER.drop _).countP isDropCall = 1
  rw [List.countP_append, List.countP_append, countP_usesTrace_drop]
  rfl

/-- C6: neither `MSER::new` nor `MSER::detect_regions` surfaces any error to
the caller: construction stores whatever pointer the native constructor
returns without inspecting it — including the null pointer 0, i.e. a native
construction failure, which is silently absorbed — and detection always
returns the plain unpacked sequences, for every detector (null-handled ones
included), image and native behavior. -/
theorem mser_ops_infallible (delta : Int) (min_area : Int) (max_area : Int)
    (max_variation : Rat) (min_diversity : Rat) (max_evolution : Int)
    (area_threshold : Rat) (min_margin : Rat) (edge_blur_size : Int)
    (algo : NativeAlgo) (m : MSER) (image : Mat) :
    (∀ nu : NativeNew,
      (MSER.new nu delta min_area max_area max_variation min_diversity
        max_evolution area_threshold min_margin edge_blur_size).wrapper =
      { value := nu delta min_area max_area max_variation min_diversity
                   max_evolution area_threshold min_margin edge_blur_size }) ∧
    ((MSER.new (fun _ _ _ _ _ _ _ _ _ => 0) delta min_area max_area
      max_variation min_diversity max_evolution area_threshold min_margin
      edge_blur_size).wrapper = { value := 0 }) ∧
    ((MSER.detect_regions algo m image).regions =
      (algo m.value image.data).map fun r => r.1) ∧
    ((MSER.detect_regions algo m image).boxes =
      (algo m.value image.data).map Prod.snd) := by
  refine ⟨fun nu => rfl, rfl, ?_, rfl⟩
  simp [MSER.detect_regions, cv_mser_detect_regions, CVec.unpackNested,
    CVec.unpack, List.map_map, Function.comp]

/-- C7: `MSER::new` performs no local validation or transformation of its
nine parameters: for all argument values, its native-call trace is exactly
one `cv_mser_new` call carrying the nine parameters unchanged and in the
same order, and the wrapper stores exactly the pointer that call returned. -/
theorem mser_new_forwards (nu : NativeNew) (delta : Int) (min_area : Int)
    (max_area : Int) (max_variation : Rat) (min_diversity : Rat)
    (max_evolution : Int) (area_threshold : Rat) (min_margin : Rat)
    (edge_blur_size : Int) :
    ((MSER.new nu delta min_area max_area max_variation min_diversity
      max_evolution area_threshold min_margin edge_blur_size).trace =
      [NativeCall.mser_new delta min_area max_area max_variation
        min_diversity max_evolution area_threshold min_margin
        edge_blur_size]) ∧
    ((MSER.new nu delta min_area max_area max_variation min_diversity
      max_evolution area_threshold min_margin edge_blur_size).wrapper.value =
      nu delta min_area max_area max_variation min_diversity max_evolution
        area_threshold min_margin edge_blur_size) :=
  ⟨rfl, rfl⟩

/-- C8: `MSER::detect_regions` does not mutate the input image — the image
payload after the call (which crosses the boundary through a `*const`
pointer) equals the payload before — and it has no side effect beyond the
single native detection call: its native-call trace is exactly one
`cv_mser_detect_regions` call. -/
theorem detect_regions_frame (algo : NativeAlgo) (m : MSER) (image : Mat) :
    ((MSER.detect_regions algo m image).imageAfter = image.data) ∧
    ((MSER.detect_regions algo m image).trace =
      [NativeCall.mser_detect_regions m.value image.inner]) :=
  ⟨rfl, rfl⟩

/-- C9: detection is deterministic: two `detect_regions` calls on the same
unmodified image and the same detector instance (here, two runs in a row in
one call sequence) return identical outcomes, given fixed parameters. -/
theorem detect_regions_deterministic (algo : NativeAlgo) (m : MSER)
    (image : Mat) :
    (runDetections algo m [image, image])[0]? =
      (runDetections algo m [image, image])[1]? :=
  rfl

/-- C10: each `detect_regions` call constructs fresh default (empty) output
collections before the native call and returns exactly their unpacked
contents, so the outcome of the last call in any call sequence equals the
outcome of that call alone — independent of all earlier detection calls on
the same detector. -/
theorem detect_regions_fresh_outputs (algo : NativeAlgo) (m : MSER)
    (prev : List Mat) (image : Mat) :
    ((runDetections algo m (prev ++ [image])).getLast? =
      some (MSER.detect_regions algo m image)) ∧
    ((MSER.detect_regions algo m image).regions =
      ((cv_mser_detect_regions algo m.value image.data
        (CVec.default (CVec Point2i)) (CVec.default Rect)).1.1).unpackNested) ∧
    ((MSER.detect_regions algo m image).boxes =
      ((cv_mser_detect_regions algo m.value image.data
        (CVec.default (CVec Point2i)) (CVec.default Rect)).1.2).unpack) := by
  refine ⟨?_, rfl, rfl⟩
  show ((prev ++ [image]).map fun i => MSER.detect_regions algo m i).getLast?
    = _
  rw [List.map_append]
  exact List.getLast?_concat _
